import Mathlib

/-!
Verification of the Telegram → YouTube uploader bot (src/bot.js, src/uploader.js,
src/config.js) against its natural-language specification.  The JavaScript is
shallowly embedded: pure fragments become Lean functions, the per-user session
record becomes a `Session` structure, network and file-system effects become
explicit parameters (stream outcomes, token lookups) and explicit result fields
(files present in scratch storage, cleanup calls issued).
-/

namespace DeepYt

/-! ## JavaScript string primitives

`jsSubstring s n` models `s.substring(0, n)`; `jsTruthy` models JavaScript
truthiness of an optional string field (`undefined` and `""` are falsy);
`jsOrDefault` models `s || d`. -/

def jsSubstring (s : String) (n : Nat) : String :=
  String.mk (s.data.take n)

def jsTruthy : Option String → Bool
  | none => false
  | some s => s != ""

def jsOrDefault (o : Option String) (d : String) : String :=
  match o with
  | none => d
  | some s => if s = "" then d else s

/-! ## Data model: the per-user session (src/bot.js, session middleware) -/

inductive Step where
  | idle
  | awaiting_video
  | downloading
  | awaiting_title
  | awaiting_description
  | awaiting_privacy
  | awaiting_tags
  | uploading
  deriving DecidableEq, Repr

inductive AuthStep where
  | awaiting_code
  deriving DecidableEq, Repr

/-- The `videoInfo` record accumulated by the conversation flow and read by
`uploadVideo`.  Fields absent on the JavaScript object are `none`. -/
structure VideoInfo where
  title : Option String := none
  description : Option String := none
  tags : Option String := none
  privacyStatus : Option String := none
  categoryId : Option String := none
  mimeType : Option String := none
  size : Option Nat := none
  deriving DecidableEq, Repr

/-- A user session as created by the middleware in src/bot.js (lines 46-55).
`lastActivity` and the progress counters are omitted: no verified property
reads them. -/
structure Session where
  step : Step := .idle
  videoInfo : VideoInfo := {}
  filePath : Option String := none
  authStep : Option AuthStep := none
  isAdmin : Bool := false
  deriving DecidableEq, Repr

/-! ## Upload Gateway: metadata construction (src/uploader.js, uploadVideo) -/

structure Snippet where
  title : String
  description : String
  tags : List String
  categoryId : String
  deriving DecidableEq, Repr

structure VideoStatus where
  privacyStatus : String
  selfDeclaredMadeForKids : Bool
  deriving DecidableEq, Repr

structure VideoMetadata where
  snippet : Snippet
  status : VideoStatus
  deriving DecidableEq, Repr

/-- `videoData.tags ? videoData.tags.split(',').map(trim).filter(len>0).slice(0,30) : []`
(src/uploader.js lines 178-182). -/
def parseTags (raw : Option String) : List String :=
  if jsTruthy raw then
    (((((raw.getD "").splitOn ",").map String.trim).filter
        (fun t => 0 < t.length)).take 30)
  else []

/-- The `videoMetadata` object built by `uploadVideo` (src/uploader.js lines
174-189), given that `videoData.title` is the string `title`. -/
def buildVideoMetadata (title : String) (v : VideoInfo) : VideoMetadata :=
  { snippet :=
      { title := jsSubstring title 100
        description :=
          if jsTruthy v.description then jsSubstring (v.description.getD "") 5000 else ""
        tags := parseTags v.tags
        categoryId := jsOrDefault v.categoryId "22" }
    status :=
      { privacyStatus := jsOrDefault v.privacyStatus "private"
        selfDeclaredMadeForKids := false } }

inductive UploadPrep where
  | notAuthenticated (error : String)
  | titleError
  | metadata (m : VideoMetadata)
  deriving DecidableEq, Repr

/-- The credential-and-metadata phase of `uploadVideo` (src/uploader.js lines
162-189): a missing token set raises the not-authenticated error (caught into a
failure result); an absent `title` raises a TypeError on
`videoData.title.substring`, caught into a failure result (`titleError`);
otherwise the metadata object is built. -/
def uploadVideoPrepare (tokens : Option String) (v : VideoInfo) : UploadPrep :=
  match tokens with
  | none => .notAuthenticated "User not authenticated. Please use /auth first."
  | some _ =>
    match v.title with
    | none => .titleError
    | some t => .metadata (buildVideoMetadata t v)

/-! ## Acquisition Layer: extension validation (src/uploader.js, src/config.js) -/

def allowedExtensions : List String :=
  [".mp4", ".mkv", ".avi", ".mov", ".wmv", ".flv", ".webm"]

/-- `.toLowerCase()`, character by character (all inputs of interest are
ASCII). -/
def lowerString (s : String) : String :=
  String.mk (s.data.map Char.toLower)

/-- `String.prototype.startsWith`. -/
def jsStartsWith (s p : String) : Bool :=
  p.data.isPrefixOf s.data

/-- The characters after the last `/` (the whole string when there is
none) — the basename step of Node's `path.extname`. -/
def lastSegment (l : List Char) : List Char :=
  (l.reverse.takeWhile (fun c => c != '/')).reverse

/-- Index of the last `.` in a character list, if any. -/
def lastDotIdx (l : List Char) : Option Nat :=
  match l.reverse.findIdx? (fun c => c == '.') with
  | none => none
  | some j => some (l.length - 1 - j)

/-- Node's `path.extname`: the extension of the last path segment, from its
last `.` to the end; empty when the segment has no dot, when the only dot is
the leading character (dotfiles such as `.mp4` have no extension), or when the
segment is `..`. -/
def extname (p : String) : String :=
  let base := lastSegment p.data
  match lastDotIdx base with
  | none => ""
  | some i =>
    if i = 0 then ""
    else if base = ['.', '.'] then ""
    else String.mk (base.drop i)

/-- `FileDownloader.getFileExtension` (src/uploader.js lines 431-433). -/
def getFileExtension (filename : String) : String :=
  lowerString (extname filename)

/-- `FileDownloader.isValidExtension` (src/uploader.js lines 426-429): note it
takes a *file name* and applies `path.extname` itself. -/
def isValidExtension (filename : String) : Bool :=
  allowedExtensions.contains (lowerString (extname filename))

inductive FileCheckOutcome where
  | tooLarge
  | unsupportedFormat (extension : String)
  | proceedToDownload (fileName : String)
  deriving DecidableEq, Repr

/-- The pre-download validation of `handleVideoFile` (src/bot.js lines
507-527), after the session-step and authentication gates: the size check, then
`extension = getFileExtension(fileName)` followed by
`isValidExtension(extension)` — the already-extracted extension, not the file
name, is what the code passes on. -/
def handleVideoFileCheck (fileName : String) (fileSize maxSize : Nat) : FileCheckOutcome :=
  if fileSize > maxSize then .tooLarge
  else
    let extension := getFileExtension fileName
    if isValidExtension extension = false then .unsupportedFormat extension
    else .proceedToDownload fileName

/-! ## Acquisition Layer: downloads (src/uploader.js, FileDownloader)

Network effects are abstracted into a `StreamOutcome` parameter: the HTTP
request either fails before a write stream is opened (`requestError`), the
piped stream errors mid-transfer after the scratch file has been created
(`streamError`), or the pipeline completes leaving a file of `size` bytes
(`completed`).  `AcqResult.fileExistsAfter` records whether the scratch file
exists in the temp directory once the call returns. -/

inductive StreamOutcome where
  | requestError (message : String)
  | streamError (message : String) (partialSize : Nat)
  | completed (size : Nat)
  deriving DecidableEq, Repr

structure AcqResult where
  success : Bool
  error : Option String := none
  filePath : Option String := none
  size : Nat := 0
  mimeType : String := "video/mp4"
  fileExistsAfter : Bool
  deriving DecidableEq, Repr

/-- The oversize message of `downloadTelegramFile` (src/uploader.js line 297);
the source renders both sizes in MB with two decimals via floating-point
`toFixed(2)`, which we abstract by embedding the raw byte counts — no verified
property inspects the digits. -/
def tooLargeTelegramMsg (size maxSize : Nat) : String :=
  "File too large: " ++ toString size ++ " bytes (max: " ++ toString maxSize ++ " bytes)"

/-- The oversize message of `downloadDirectUrl` (src/uploader.js line 365),
abstracted the same way. -/
def tooLargeDirectMsg (size : Nat) : String :=
  "File too large: " ++ toString size ++ " bytes"

/-- `FileDownloader.downloadTelegramFile` (src/uploader.js lines 258-314): on
a completed stream it removes the file and fails when the size is zero or above
`maxSize`, else succeeds; any thrown error is caught into
`Download failed: <message>` — the catch block removes nothing, so a
mid-transfer stream error leaves the partial file behind. -/
def downloadTelegramFile (fileName : String) (outcome : StreamOutcome) (maxSize : Nat) : AcqResult :=
  match outcome with
  | .requestError msg =>
    { success := false, error := some ("Download failed: " ++ msg), fileExistsAfter := false }
  | .streamError msg _ =>
    { success := false, error := some ("Download failed: " ++ msg), fileExistsAfter := true }
  | .completed size =>
    if size = 0 then
      { success := false, error := some "Download failed: Downloaded file is empty",
        size := size, fileExistsAfter := false }
    else if size > maxSize then
      { success := false, error := some ("Download failed: " ++ tooLargeTelegramMsg size maxSize),
        size := size, fileExistsAfter := false }
    else
      { success := true, filePath := some ("temp/" ++ fileName), size := size,
        fileExistsAfter := true }

/-- `FileDownloader.downloadDirectUrl` (src/uploader.js lines 316-382): a URL
not starting with `http` fails immediately; a completed download is removed and
fails only above `maxSize` (no zero-byte check); thrown errors are caught into
`URL download failed: <message>`, again without removing a partial file. -/
def downloadDirectUrl (url fileName : String) (outcome : StreamOutcome) (maxSize : Nat) : AcqResult :=
  if jsStartsWith url "http" = false then
    { success := false, error := some "Invalid URL", fileExistsAfter := false }
  else
    match outcome with
    | .requestError msg =>
      { success := false, error := some ("URL download failed: " ++ msg), fileExistsAfter := false }
    | .streamError msg _ =>
      { success := false, error := some ("URL download failed: " ++ msg), fileExistsAfter := true }
    | .completed size =>
      if size > maxSize then
        { success := false, error := some ("URL download failed: " ++ tooLargeDirectMsg size),
          size := size, fileExistsAfter := false }
      else
        { success := true, filePath := some ("temp/" ++ fileName), size := size,
          fileExistsAfter := true }

/-! ## Acquisition Layer: Google Drive link extraction -/

/-- One scan step for a regex of the shape `marker([^stop]+)`: find the first
position where `marker` occurs followed by at least one character other than
`stop`, and capture the run of non-`stop` characters after it. -/
def captureAfterGo (marker : List Char) (stop : Char) : List Char → Option String
  | [] => none
  | c :: rest =>
    if marker.isPrefixOf (c :: rest) then
      let cap := ((c :: rest).drop marker.length).takeWhile (fun d => d != stop)
      if cap.isEmpty then captureAfterGo marker stop rest
      else some (String.mk cap)
    else captureAfterGo marker stop rest

def captureAfter (marker : String) (stop : Char) (url : String) : Option String :=
  captureAfterGo marker.data stop url.data

/-- The file-id extraction of `downloadGoogleDrive` (src/uploader.js lines
386-401): the four regexes `\/d\/([^\/]+)`, `id=([^&]+)`, `\/file\/d\/([^\/]+)`
and `drive\.google\.com\/open\?id=([^&]+)` are tried in order; the first match
wins. -/
def extractDriveFileId (url : String) : Option String :=
  match captureAfter "/d/" '/' url with
  | some fileId => some fileId
  | none =>
    match captureAfter "id=" '&' url with
    | some fileId => some fileId
    | none =>
      match captureAfter "/file/d/" '/' url with
      | some fileId => some fileId
      | none => captureAfter "drive.google.com/open?id=" '&' url

inductive DriveOutcome where
  | invalidFormat (error : String)
  | delegated (downloadUrl : String)
  deriving DecidableEq, Repr

/-- `FileDownloader.downloadGoogleDrive` (src/uploader.js lines 384-424) up to
the delegation boundary: with no matching pattern it returns the format error
without issuing any network call; otherwise it rewrites to the
`uc?export=download` endpoint and calls `downloadDirectUrl` on it
(`delegated`). -/
def downloadGoogleDrive (url : String) : DriveOutcome :=
  match extractDriveFileId url with
  | none => .invalidFormat "Invalid Google Drive URL format"
  | some fileId =>
    .delegated ("https://drive.google.com/uc?export=download&id=" ++ fileId)

/-- `FileDownloader.downloadGoogleDrive` with its delegation to
`downloadDirectUrl` inlined, giving the acquisition result the caller
(`handleUrl`) sees: a URL matching no shape yields the format-error failure
with no file ever created; otherwise the result is that of `downloadDirectUrl`
on the rewritten `uc?export=download` endpoint. -/
def driveAcqResult (url fileName : String) (outcome : StreamOutcome) (maxSize : Nat) : AcqResult :=
  match extractDriveFileId url with
  | none =>
    { success := false, error := some "Invalid Google Drive URL format",
      fileExistsAfter := false }
  | some fileId =>
    downloadDirectUrl ("https://drive.google.com/uc?export=download&id=" ++ fileId)
      fileName outcome maxSize

/-- `FileDownloader.cleanup` (src/uploader.js lines 435-444) acting on the set
of scratch files, modelled as the list of existing paths: the path, when
present, is removed; errors are swallowed. -/
def cleanup (files : List String) : Option String → List String
  | none => files
  | some p => files.filter (fun q => q != p)

/-! ## Session State Machine: bot handlers (src/bot.js) -/

/-- `YouTubeUploader.checkAuth` (src/uploader.js lines 119-138): no stored
token set yields `false`; otherwise the probe call against the channels API
decides (`probeOk`), any thrown error being caught into `false`. -/
def checkAuth (tokens : Option String) (probeOk : Bool) : Bool :=
  match tokens with
  | none => false
  | some _ => probeOk

def authRequiredReply : String :=
  "❌ *Authentication Required*\n\nPlease authenticate first using /auth command."

/-- The upload prompt of the `/upload` command, abbreviated to its first line;
no verified property inspects its text. -/
def uploadPromptReply : String :=
  "📤 *Upload Video to YouTube*"

structure CommandOutcome where
  session : Session
  reply : String
  acquisitionStarted : Bool
  deriving DecidableEq, Repr

/-- The `/upload` command handler (src/bot.js lines 163-200): a failing
authentication check replies and returns before touching the session;
otherwise the prompt is sent and the step becomes `awaiting_video`.  Neither
branch starts an acquisition — downloads begin only when a file or URL later
arrives. -/
def uploadCommand (s : Session) (isAuth : Bool) : CommandOutcome :=
  if isAuth = false then
    { session := s, reply := authRequiredReply, acquisitionStarted := false }
  else
    { session := { s with step := .awaiting_video }, reply := uploadPromptReply,
      acquisitionStarted := false }

structure AcqHandled where
  session : Session
  reply : String
  deriving DecidableEq, Repr

/-- The post-download section shared by `handleVideoFile` (src/bot.js lines
546-563) and `handleUrl` (lines 612-629): on failure the step returns to
`idle` and the reply embeds the acquisition error; on success `filePath`,
`videoInfo.mimeType` and `videoInfo.size` are recorded and the step becomes
`awaiting_title`.  Neither branch removes any file. -/
def handleAcqResult (s : Session) (r : AcqResult) : AcqHandled :=
  if r.success = false then
    { session := { s with step := .idle }
      reply := "❌ Download failed: " ++ r.error.getD "" }
  else
    { session :=
        { s with
          filePath := r.filePath
          videoInfo := { mimeType := some r.mimeType, size := some r.size }
          step := .awaiting_title }
      reply := "✅ Video downloaded successfully!" }

inductive UploadAttempt where
  | success (videoUrl title privacy : String)
  | failure (error : String)
  | thrown (message : String)
  deriving DecidableEq, Repr

structure TagsResult where
  session : Session
  files : List String
  cleanupCalls : List String
  reply : String
  deriving DecidableEq, Repr

/-- `handleTags` (src/bot.js lines 711-760): store the tags unless the text is
"skip" (case-insensitively), enter `uploading`, attempt the upload inside
`try`/`catch`, and in `finally` call `downloader.cleanup(session.filePath)`
when a path is recorded, then reset `step`, `videoInfo` and `filePath`.  The
`finally` block runs for all three attempt outcomes. -/
def handleTags (s : Session) (text : String) (attempt : UploadAttempt)
    (files : List String) : TagsResult :=
  let s1 : Session :=
    if text.toLower ≠ "skip" then
      { s with videoInfo := { s.videoInfo with tags := some text } }
    else s
  let s2 : Session := { s1 with step := .uploading }
  let reply : String :=
    match attempt with
    | .success _ _ _ => "✅ *Upload Successful!*"
    | .failure e => "❌ Upload failed: " ++ e
    | .thrown m => "❌ Upload error: " ++ m
  let calls : List String :=
    match s2.filePath with
    | some p => [p]
    | none => []
  { session := { s2 with step := .idle, videoInfo := {}, filePath := none }
    files := cleanup files s2.filePath
    cleanupCalls := calls
    reply := reply }

structure CancelResult where
  session : Session
  files : List String
  cleanupCalls : List String
  reply : String
  deriving DecidableEq, Repr

/-- The `/cancel` command handler (src/bot.js lines 320-338): cleanup of any
recorded file path, then the session is replaced by a fresh one that keeps
only `isAdmin` (as `session?.isAdmin || false`). -/
def cancelCommand (s : Session) (files : List String) : CancelResult :=
  let calls : List String :=
    match s.filePath with
    | some p => [p]
    | none => []
  { session :=
      { step := .idle
        videoInfo := {}
        filePath := none
        authStep := none
        isAdmin := (s.isAdmin || false) }
    files := cleanup files s.filePath
    cleanupCalls := calls
    reply := "✅ Operation cancelled." }

/-- The `cancel` inline-button handler (src/bot.js lines 468-474): it only
sets `session.step = 'idle'` — nothing else is touched and no cleanup runs. -/
def cancelAction (s : Session) : Session :=
  { s with step := .idle }

inductive TextRoute where
  | authCode
  | title
  | description
  | tags
  | url
  | fallback
  deriving DecidableEq, Repr

/-- The free-text dispatcher `bot.on('text')` (src/bot.js lines 389-422): the
`authStep === 'awaiting_code'` check comes first, before the `switch` on the
main step; the default branch routes URLs to `handleUrl` and everything else
to the idle hint / silence. -/
def routeText (s : Session) (isUrl : Bool) : TextRoute :=
  if s.authStep = some AuthStep.awaiting_code then .authCode
  else
    match s.step with
    | .awaiting_title => .title
    | .awaiting_description => .description
    | .awaiting_tags => .tags
    | _ => if isUrl then .url else .fallback

inductive ExchangeOutcome where
  | ok (tokens email name : String)
  | err (message : String)
  deriving DecidableEq, Repr

structure AuthCallbackResult where
  success : Bool
  savedTokens : Option String
  error : Option String
  deriving DecidableEq, Repr

/-- `YouTubeUploader.handleAuthCallback` (src/uploader.js lines 86-117): a
successful code-for-token exchange saves the token set through the credential
store (`savedTokens` records the save call) and reports success; any thrown
error is caught into a failure result and nothing is saved. -/
def handleAuthCallback (outcome : ExchangeOutcome) : AuthCallbackResult :=
  match outcome with
  | .ok tokens _ _ => { success := true, savedTokens := some tokens, error := none }
  | .err m => { success := false, savedTokens := none, error := some m }

structure AuthCodeHandled where
  session : Session
  savedTokens : Option String
  replySuccess : Bool
  deriving DecidableEq, Repr

/-- `handleAuthCode` (src/bot.js lines 632-663): run the exchange, then clear
`authStep` unconditionally, then reply according to the result. -/
def handleAuthCode (s : Session) (outcome : ExchangeOutcome) : AuthCodeHandled :=
  let result := handleAuthCallback outcome
  { session := { s with authStep := none }
    savedTokens := result.savedTokens
    replySuccess := result.success }

/-- A concrete mid-flow session used by concrete instantiations: tags stage,
an in-flight scratch file and a pending auth code. -/
def midFlowSession : Session :=
  { step := .awaiting_tags
    videoInfo := { title := some "T" }
    filePath := some "temp/v.mp4"
    authStep := some .awaiting_code
    isAdmin := true }

/-! ## Helper lemmas -/

theorem jsSubstring_length_le (s : String) (n : Nat) : (jsSubstring s n).length ≤ n := by
  show (s.data.take n).length ≤ n
  rw [List.length_take]
  omega

theorem parseTags_length_le (raw : Option String) : (parseTags raw).length ≤ 30 := by
  unfold parseTags
  split
  · rw [List.length_take]
    omega
  · simp

theorem parseTags_mem_pos (raw : Option String) :
    ∀ t ∈ parseTags raw, 0 < t.length := by
  intro t ht
  unfold parseTags at ht
  split at ht
  · have h1 : t ∈ ((((raw.getD "").splitOn ",").map String.trim).filter
        (fun t => 0 < t.length)) := List.mem_of_mem_take ht
    have h2 := (List.mem_filter.mp h1).2
    simpa using h2
  · simp at ht

theorem mem_filter_ne_self (p : String) (files : List String) :
    p ∉ files.filter (fun q => q != p) := by
  intro h
  have := (List.mem_filter.mp h).2
  simp at this

/-! ## Claims -/

/-- C1: every upload attempt started from `awaiting_tags` — success, failure
or thrown — ends with the session step `idle`, `videoInfo` cleared, `filePath`
null, cleanup invoked on the previously recorded file path, and that scratch
file gone. -/
theorem upload_flow_cleanup (s : Session) (text : String) (attempt : UploadAttempt)
    (files : List String) (hstep : s.step = .awaiting_tags) :
    (handleTags s text attempt files).session.step = .idle ∧
    (handleTags s text attempt files).session.videoInfo = {} ∧
    (handleTags s text attempt files).session.filePath = none ∧
    (∀ p, s.filePath = some p →
      p ∈ (handleTags s text attempt files).cleanupCalls ∧
      p ∉ (handleTags s text attempt files).files) := by
  have hfp : (if text.toLower ≠ "skip" then
      { s with videoInfo := { s.videoInfo with tags := some text } } else s).filePath
      = s.filePath := by
    split <;> rfl
  refine ⟨rfl, rfl, rfl, ?_⟩
  intro p hp
  simp only [handleTags]
  rw [hfp, hp]
  simp [cleanup, mem_filter_ne_self p files]

/-- Witness for `upload_flow_cleanup` at a concrete session holding a scratch
file, with a failing upload attempt. -/
theorem upload_flow_cleanup_witness :
    ({ step := .awaiting_tags, filePath := some "temp/v.mp4" } : Session).step
        = .awaiting_tags ∧
    ((handleTags { step := .awaiting_tags, filePath := some "temp/v.mp4" } "tag1,tag2"
        (.failure "quota") ["temp/v.mp4"]).session.step = .idle ∧
      (handleTags { step := .awaiting_tags, filePath := some "temp/v.mp4" } "tag1,tag2"
        (.failure "quota") ["temp/v.mp4"]).session.videoInfo = {} ∧
      (handleTags { step := .awaiting_tags, filePath := some "temp/v.mp4" } "tag1,tag2"
        (.failure "quota") ["temp/v.mp4"]).session.filePath = none ∧
      (∀ p, ({ step := .awaiting_tags, filePath := some "temp/v.mp4" } : Session).filePath
          = some p →
        p ∈ (handleTags { step := .awaiting_tags, filePath := some "temp/v.mp4" } "tag1,tag2"
          (.failure "quota") ["temp/v.mp4"]).cleanupCalls ∧
        p ∉ (handleTags { step := .awaiting_tags, filePath := some "temp/v.mp4" } "tag1,tag2"
          (.failure "quota") ["temp/v.mp4"]).files)) :=
  ⟨rfl, upload_flow_cleanup _ "tag1,tag2" (.failure "quota") ["temp/v.mp4"] rfl⟩

/-- C2: when the authentication check fails (no stored credential or a failing
probe), the `/upload` command replies with the authentication-required message,
leaves the idle session untouched, and starts no acquisition. -/
theorem unauth_upload_rejected (s : Session) (tokens : Option String) (probeOk : Bool)
    (hauth : checkAuth tokens probeOk = false) (hidle : s.step = .idle) :
    (uploadCommand s (checkAuth tokens probeOk)).session = s ∧
    (uploadCommand s (checkAuth tokens probeOk)).session.step = .idle ∧
    (uploadCommand s (checkAuth tokens probeOk)).reply = authRequiredReply ∧
    (uploadCommand s (checkAuth tokens probeOk)).acquisitionStarted = false := by
  rw [hauth]
  exact ⟨rfl, hidle, rfl, rfl⟩

/-- Witness for `unauth_upload_rejected`: a fresh idle session with no stored
token set. -/
theorem unauth_upload_rejected_witness :
    checkAuth none true = false ∧ ({} : Session).step = .idle ∧
    ((uploadCommand {} (checkAuth none true)).session = {} ∧
      (uploadCommand {} (checkAuth none true)).session.step = .idle ∧
      (uploadCommand {} (checkAuth none true)).reply = authRequiredReply ∧
      (uploadCommand {} (checkAuth none true)).acquisitionStarted = false) :=
  ⟨rfl, rfl, unauth_upload_rejected {} none true rfl rfl⟩

/-- C3: with an existing credential, `uploadVideo` builds the remote metadata
by truncating the title to at most 100 characters and the description to at
most 5000, splitting the raw tag string on commas into at most 30 trimmed
non-empty tags (empty when unset), and defaulting `privacyStatus` to
`private` and `categoryId` to `22` when unset. -/
theorem upload_metadata_spec (tokens : Option String) (v : VideoInfo) (t : String)
    (htok : tokens.isSome = true) (ht : v.title = some t) :
    uploadVideoPrepare tokens v = .metadata (buildVideoMetadata t v) ∧
    (buildVideoMetadata t v).snippet.title = jsSubstring t 100 ∧
    (buildVideoMetadata t v).snippet.title.length ≤ 100 ∧
    (buildVideoMetadata t v).snippet.description.length ≤ 5000 ∧
    (buildVideoMetadata t v).snippet.tags.length ≤ 30 ∧
    (∀ tag ∈ (buildVideoMetadata t v).snippet.tags, 0 < tag.length) ∧
    (∀ raw, v.tags = some raw → ∀ tag ∈ (buildVideoMetadata t v).snippet.tags,
      ∃ piece ∈ raw.splitOn ",", tag = piece.trim) ∧
    (v.tags = none → (buildVideoMetadata t v).snippet.tags = []) ∧
    (v.categoryId = none → (buildVideoMetadata t v).snippet.categoryId = "22") ∧
    (v.privacyStatus = none → (buildVideoMetadata t v).status.privacyStatus = "private") := by
  obtain ⟨tk, htk⟩ := Option.isSome_iff_exists.mp htok
  refine ⟨?_, rfl, jsSubstring_length_le t 100, ?_, parseTags_length_le v.tags,
    parseTags_mem_pos v.tags, ?_, ?_, ?_, ?_⟩
  · rw [htk]
    unfold uploadVideoPrepare
    rw [ht]
  · show (if jsTruthy v.description then jsSubstring (v.description.getD "") 5000
        else "").length ≤ 5000
    split
    · exact jsSubstring_length_le _ 5000
    · simp
  · intro raw hraw tag htag
    show ∃ piece ∈ raw.splitOn ",", tag = piece.trim
    have : tag ∈ parseTags v.tags := htag
    unfold parseTags at this
    rw [hraw] at this
    simp only [jsTruthy] at this
    by_cases hraw0 : raw = ""
    · rw [hraw0] at this
      simp at this
    · rw [if_pos (by simp [hraw0])] at this
      have h1 := List.mem_of_mem_take this
      have h2 := (List.mem_filter.mp h1).1
      obtain ⟨piece, hpm, hpe⟩ := List.mem_map.mp h2
      exact ⟨piece, by simpa using hpm, hpe.symm⟩
  · intro hnone
    show parseTags v.tags = []
    rw [hnone]
    rfl
  · intro hnone
    show jsOrDefault v.categoryId "22" = "22"
    rw [hnone]
    rfl
  · intro hnone
    show jsOrDefault v.privacyStatus "private" = "private"
    rw [hnone]
    rfl

/-- Witness for `upload_metadata_spec`: a stored credential and a `videoInfo`
with a set title and raw tags. -/
theorem upload_metadata_spec_witness :
    (some "tok" : Option String).isSome = true ∧
    ({ title := some "My Video", tags := some "a, b" } : VideoInfo).title
        = some "My Video" ∧
    (uploadVideoPrepare (some "tok") { title := some "My Video", tags := some "a, b" }
        = .metadata (buildVideoMetadata "My Video" { title := some "My Video", tags := some "a, b" }) ∧
      (buildVideoMetadata "My Video" { title := some "My Video", tags := some "a, b" }).snippet.title
        = jsSubstring "My Video" 100 ∧
      (buildVideoMetadata "My Video" { title := some "My Video", tags := some "a, b" }).snippet.title.length ≤ 100 ∧
      (buildVideoMetadata "My Video" { title := some "My Video", tags := some "a, b" }).snippet.description.length ≤ 5000 ∧
      (buildVideoMetadata "My Video" { title := some "My Video", tags := some "a, b" }).snippet.tags.length ≤ 30 ∧
      (∀ tag ∈ (buildVideoMetadata "My Video" { title := some "My Video", tags := some "a, b" }).snippet.tags,
        0 < tag.length) ∧
      (∀ raw, ({ title := some "My Video", tags := some "a, b" } : VideoInfo).tags = some raw →
        ∀ tag ∈ (buildVideoMetadata "My Video" { title := some "My Video", tags := some "a, b" }).snippet.tags,
          ∃ piece ∈ raw.splitOn ",", tag = piece.trim) ∧
      (({ title := some "My Video", tags := some "a, b" } : VideoInfo).tags = none →
        (buildVideoMetadata "My Video" { title := some "My Video", tags := some "a, b" }).snippet.tags = []) ∧
      (({ title := some "My Video", tags := some "a, b" } : VideoInfo).categoryId = none →
        (buildVideoMetadata "My Video" { title := some "My Video", tags := some "a, b" }).snippet.categoryId = "22") ∧
      (({ title := some "My Video", tags := some "a, b" } : VideoInfo).privacyStatus = none →
        (buildVideoMetadata "My Video" { title := some "My Video", tags := some "a, b" }).status.privacyStatus = "private")) :=
  ⟨rfl, rfl, upload_metadata_spec (some "tok") { title := some "My Video", tags := some "a, b" }
    "My Video" rfl rfl⟩

/-- C4 (code-bug evaluation): `handleVideoFile` extracts the extension and then
passes the *extension* to `isValidExtension`, which applies `path.extname`
again; `path.extname ".mp4" = ""`, so a perfectly valid `video_abc.mp4` chat
video is rejected as an unsupported format even though `.mp4` is in the
allow-list. -/
theorem extension_check_rejects_valid_file :
    getFileExtension "video_abc.mp4" = ".mp4" ∧
    allowedExtensions.contains ".mp4" = true ∧
    handleVideoFileCheck "video_abc.mp4" 1048576 52428800
      = .unsupportedFormat ".mp4" := by
  decide

/-- C5: Drive-link acquisition extracts the file id from the first matching of
the four recognized URL shapes — `/d/` segment, `id=` query parameter,
`/file/d/` segment, `open?id=` form, tried in that order — and delegates to
direct-URL acquisition on the rewritten `uc?export=download` endpoint; with no
match it fails immediately with the format error (and no network call is
modelled); `https://drive.google.com/file/d/ABC123/view` yields `ABC123`. -/
theorem drive_link_extraction (url fileId : String) :
    (captureAfter "/d/" '/' url = some fileId →
      extractDriveFileId url = some fileId) ∧
    (captureAfter "/d/" '/' url = none →
      captureAfter "id=" '&' url = some fileId →
      extractDriveFileId url = some fileId) ∧
    (captureAfter "/d/" '/' url = none →
      captureAfter "id=" '&' url = none →
      captureAfter "/file/d/" '/' url = some fileId →
      extractDriveFileId url = some fileId) ∧
    (captureAfter "/d/" '/' url = none →
      captureAfter "id=" '&' url = none →
      captureAfter "/file/d/" '/' url = none →
      captureAfter "drive.google.com/open?id=" '&' url = some fileId →
      extractDriveFileId url = some fileId) ∧
    (extractDriveFileId url = some fileId →
      downloadGoogleDrive url
        = .delegated ("https://drive.google.com/uc?export=download&id=" ++ fileId)) ∧
    (extractDriveFileId url = none →
      downloadGoogleDrive url = .invalidFormat "Invalid Google Drive URL format") ∧
    extractDriveFileId "https://drive.google.com/file/d/ABC123/view" = some "ABC123" ∧
    downloadGoogleDrive "https://drive.google.com/file/d/ABC123/view"
      = .delegated "https://drive.google.com/uc?export=download&id=ABC123" := by
  refine ⟨?_, ?_, ?_, ?_, ?_, ?_, ?_, ?_⟩
  · intro h1
    unfold extractDriveFileId
    rw [h1]
  · intro h1 h2
    unfold extractDriveFileId
    rw [h1, h2]
  · intro h1 h2 h3
    unfold extractDriveFileId
    rw [h1, h2, h3]
  · intro h1 h2 h3 h4
    unfold extractDriveFileId
    rw [h1, h2, h3, h4]
  · intro h
    unfold downloadGoogleDrive
    rw [h]
  · intro h
    unfold downloadGoogleDrive
    rw [h]
  · decide
  · decide

/-- Witness for `drive_link_extraction`: an `open?id=` share link matched by
the second (`id=`) shape after the first shape fails, a no-shape URL
delegating to the format error, and the canonical `/file/d/` link. -/
theorem drive_link_extraction_witness :
    captureAfter "/d/" '/' "https://drive.google.com/open?id=XYZ9" = none ∧
    captureAfter "id=" '&' "https://drive.google.com/open?id=XYZ9" = some "XYZ9" ∧
    extractDriveFileId "https://drive.google.com/open?id=XYZ9" = some "XYZ9" ∧
    downloadGoogleDrive "https://drive.google.com/open?id=XYZ9"
      = .delegated ("https://drive.google.com/uc?export=download&id=" ++ "XYZ9") ∧
    extractDriveFileId "https://example.com/nothing" = none ∧
    downloadGoogleDrive "https://example.com/nothing"
      = .invalidFormat "Invalid Google Drive URL format" ∧
    extractDriveFileId "https://drive.google.com/file/d/ABC123/view" = some "ABC123" :=
  ⟨by decide, by decide,
    (drive_link_extraction "https://drive.google.com/open?id=XYZ9" "XYZ9").2.1
      (by decide) (by decide),
    (drive_link_extraction "https://drive.google.com/open?id=XYZ9" "XYZ9").2.2.2.2.1
      ((drive_link_extraction "https://drive.google.com/open?id=XYZ9" "XYZ9").2.1
        (by decide) (by decide)),
    by decide,
    (drive_link_extraction "https://example.com/nothing" "ABC123").2.2.2.2.2.1 (by decide),
    (drive_link_extraction "https://drive.google.com/file/d/ABC123/view" "ABC123").2.2.2.2.2.2.1⟩

/-- C6: a download completing exactly at the configured maximum succeeds on
both entry points; one exceeding it by at least one byte fails with the
oversize error and the partial file is removed. -/
theorem download_size_boundary (size maxSize : Nat) (fileName url : String)
    (hmax : 0 < maxSize) (hover : maxSize < size)
    (hurl : jsStartsWith url "http" = true) :
    (downloadTelegramFile fileName (.completed maxSize) maxSize).success = true ∧
    (downloadDirectUrl url fileName (.completed maxSize) maxSize).success = true ∧
    (downloadTelegramFile fileName (.completed size) maxSize).success = false ∧
    (downloadTelegramFile fileName (.completed size) maxSize).error
      = some ("Download failed: " ++ tooLargeTelegramMsg size maxSize) ∧
    (downloadTelegramFile fileName (.completed size) maxSize).fileExistsAfter = false ∧
    (downloadDirectUrl url fileName (.completed size) maxSize).success = false ∧
    (downloadDirectUrl url fileName (.completed size) maxSize).error
      = some ("URL download failed: " ++ tooLargeDirectMsg size) ∧
    (downloadDirectUrl url fileName (.completed size) maxSize).fileExistsAfter = false := by
  have h1 : ¬ (maxSize = 0) := by omega
  have h2 : ¬ (maxSize > maxSize) := by omega
  have h3 : ¬ (size = 0) := by omega
  have h4 : size > maxSize := hover
  simp [downloadTelegramFile, downloadDirectUrl, hurl, h1, h2, h3, h4]

/-- Witness for `download_size_boundary` at the default 50 MiB maximum and a
download one byte over it. -/
theorem download_size_boundary_witness :
    0 < 52428800 ∧ 52428800 < 52428801 ∧
    jsStartsWith "https://example.com/v.mp4" "http" = true ∧
    ((downloadTelegramFile "v.mp4" (.completed 52428800) 52428800).success = true ∧
      (downloadDirectUrl "https://example.com/v.mp4" "v.mp4"
        (.completed 52428800) 52428800).success = true ∧
      (downloadTelegramFile "v.mp4" (.completed 52428801) 52428800).success = false ∧
      (downloadTelegramFile "v.mp4" (.completed 52428801) 52428800).error
        = some ("Download failed: " ++ tooLargeTelegramMsg 52428801 52428800) ∧
      (downloadTelegramFile "v.mp4" (.completed 52428801) 52428800).fileExistsAfter = false ∧
      (downloadDirectUrl "https://example.com/v.mp4" "v.mp4"
        (.completed 52428801) 52428800).success = false ∧
      (downloadDirectUrl "https://example.com/v.mp4" "v.mp4"
        (.completed 52428801) 52428800).error
        = some ("URL download failed: " ++ tooLargeDirectMsg 52428801) ∧
      (downloadDirectUrl "https://example.com/v.mp4" "v.mp4"
        (.completed 52428801) 52428800).fileExistsAfter = false) :=
  ⟨by omega, by omega, by decide,
    download_size_boundary 52428801 52428800 "v.mp4" "https://example.com/v.mp4"
      (by omega) (by omega) (by decide)⟩

/-- C7 counterexample: a network error interrupting the stream mid-transfer is
an acquisition failure after which the partial scratch file still exists — the
catch block of `downloadTelegramFile` removes nothing. -/
theorem acquisition_partial_file_counterexample :
    (downloadTelegramFile "v.mp4" (.streamError "read ECONNRESET" 1048576) 52428800).success
      = false ∧
    (downloadTelegramFile "v.mp4" (.streamError "read ECONNRESET" 1048576) 52428800).fileExistsAfter
      = true :=
  ⟨rfl, rfl⟩

/-- On any failed acquisition result carrying an error, the shared handler
section of `handleVideoFile`/`handleUrl` returns the step to `idle` and embeds
the error verbatim in the reply. -/
theorem handleAcqResult_failure (s : Session) (r : AcqResult) (e : String)
    (hf : r.success = false) (he : r.error = some e) :
    (handleAcqResult s r).session.step = .idle ∧
    (handleAcqResult s r).reply = "❌ Download failed: " ++ e := by
  unfold handleAcqResult
  rw [hf]
  simp [he]

/-- Characterization of the scratch file left by a failing
`downloadTelegramFile`: absent exactly for request errors and the empty-file
and oversize checks. -/
theorem downloadTelegramFile_fileExists (fileName : String) (outcome : StreamOutcome)
    (maxSize : Nat)
    (hfail : (downloadTelegramFile fileName outcome maxSize).success = false) :
    ((downloadTelegramFile fileName outcome maxSize).fileExistsAfter = false ↔
      (∃ m, outcome = .requestError m) ∨
      (∃ sz, outcome = .completed sz ∧ (sz = 0 ∨ maxSize < sz))) := by
  cases outcome with
  | requestError m => simp [downloadTelegramFile]
  | streamError m n => simp [downloadTelegramFile]
  | completed sz =>
    by_cases h0 : sz = 0
    · subst h0
      simp [downloadTelegramFile]
    · by_cases hov : sz > maxSize
      · simp [downloadTelegramFile, h0, hov]
      · exfalso
        simp [downloadTelegramFile, h0, hov] at hfail

/-- Characterization of the scratch file left by a failing
`downloadDirectUrl`: absent exactly for the invalid-URL rejection, request
errors and the oversize check. -/
theorem downloadDirectUrl_fileExists (url fileName : String) (outcome : StreamOutcome)
    (maxSize : Nat)
    (hfail : (downloadDirectUrl url fileName outcome maxSize).success = false) :
    ((downloadDirectUrl url fileName outcome maxSize).fileExistsAfter = false ↔
      jsStartsWith url "http" = false ∨
      (∃ m, outcome = .requestError m) ∨
      (∃ sz, outcome = .completed sz ∧ maxSize < sz)) := by
  by_cases hurl : jsStartsWith url "http" = false
  · simp [downloadDirectUrl, hurl]
  · have hurl2 : jsStartsWith url "http" = true := by
      cases h : jsStartsWith url "http" with
      | false => exact absurd h hurl
      | true => rfl
    cases outcome with
    | requestError m => simp [downloadDirectUrl, hurl2]
    | streamError m n => simp [downloadDirectUrl, hurl2]
    | completed sz =>
      by_cases hov : sz > maxSize
      · simp [downloadDirectUrl, hurl2, hov]
      · exfalso
        simp [downloadDirectUrl, hurl2, hov] at hfail

/-- C7 (amended): every failing acquisition attempt — chat media, direct URL,
or Drive link — returns the session step to `idle` and surfaces the error
string verbatim in the reply; the scratch file is absent after the call
exactly when the failure was a pre-file rejection (invalid URL, unmatched
Drive shape, request error) or one of the empty-file/oversize checks — a
stream error mid-transfer leaves the partial file behind. -/
theorem acquisition_failure_handling (s : Session) (fileName url fileName2 : String)
    (outcome outcome2 : StreamOutcome) (maxSize : Nat) (e e2 : String)
    (hfail : (downloadTelegramFile fileName outcome maxSize).success = false)
    (herr : (downloadTelegramFile fileName outcome maxSize).error = some e)
    (hfail2 : (downloadDirectUrl url fileName2 outcome2 maxSize).success = false)
    (herr2 : (downloadDirectUrl url fileName2 outcome2 maxSize).error = some e2) :
    (handleAcqResult s (downloadTelegramFile fileName outcome maxSize)).session.step = .idle ∧
    (handleAcqResult s (downloadTelegramFile fileName outcome maxSize)).reply
      = "❌ Download failed: " ++ e ∧
    ((downloadTelegramFile fileName outcome maxSize).fileExistsAfter = false ↔
      (∃ m, outcome = .requestError m) ∨
      (∃ sz, outcome = .completed sz ∧ (sz = 0 ∨ maxSize < sz))) ∧
    (handleAcqResult s (downloadDirectUrl url fileName2 outcome2 maxSize)).session.step
      = .idle ∧
    (handleAcqResult s (downloadDirectUrl url fileName2 outcome2 maxSize)).reply
      = "❌ Download failed: " ++ e2 ∧
    ((downloadDirectUrl url fileName2 outcome2 maxSize).fileExistsAfter = false ↔
      jsStartsWith url "http" = false ∨
      (∃ m, outcome2 = .requestError m) ∨
      (∃ sz, outcome2 = .completed sz ∧ maxSize < sz)) ∧
    (∀ u fn oc, extractDriveFileId u = none →
      (driveAcqResult u fn oc maxSize).success = false ∧
      (handleAcqResult s (driveAcqResult u fn oc maxSize)).session.step = .idle ∧
      (handleAcqResult s (driveAcqResult u fn oc maxSize)).reply
        = "❌ Download failed: " ++ "Invalid Google Drive URL format" ∧
      (driveAcqResult u fn oc maxSize).fileExistsAfter = false) ∧
    (∀ u fn oc fileId, extractDriveFileId u = some fileId →
      driveAcqResult u fn oc maxSize
        = downloadDirectUrl ("https://drive.google.com/uc?export=download&id=" ++ fileId)
            fn oc maxSize) := by
  refine ⟨(handleAcqResult_failure s _ e hfail herr).1,
    (handleAcqResult_failure s _ e hfail herr).2,
    downloadTelegramFile_fileExists fileName outcome maxSize hfail,
    (handleAcqResult_failure s _ e2 hfail2 herr2).1,
    (handleAcqResult_failure s _ e2 hfail2 herr2).2,
    downloadDirectUrl_fileExists url fileName2 outcome2 maxSize hfail2,
    ?_, ?_⟩
  · intro u fn oc hnone
    have hd : driveAcqResult u fn oc maxSize
        = { success := false, error := some "Invalid Google Drive URL format",
            fileExistsAfter := false } := by
      unfold driveAcqResult
      rw [hnone]
    rw [hd]
    exact ⟨rfl, (handleAcqResult_failure s _ _ rfl rfl).1,
      (handleAcqResult_failure s _ _ rfl rfl).2, rfl⟩
  · intro u fn oc fileId hsome
    unfold driveAcqResult
    rw [hsome]

/-- Witness for `acquisition_failure_handling`: the empty-download failure on
chat media together with a mid-transfer stream error on a direct URL. -/
theorem acquisition_failure_handling_witness :
    (downloadTelegramFile "v.mp4" (.completed 0) 52428800).success = false ∧
    (downloadTelegramFile "v.mp4" (.completed 0) 52428800).error
      = some "Download failed: Downloaded file is empty" ∧
    (downloadDirectUrl "https://example.com/v.mp4" "u.mp4"
      (.streamError "read ECONNRESET" 5) 52428800).success = false ∧
    (downloadDirectUrl "https://example.com/v.mp4" "u.mp4"
      (.streamError "read ECONNRESET" 5) 52428800).error
      = some "URL download failed: read ECONNRESET" ∧
    ((handleAcqResult {} (downloadTelegramFile "v.mp4" (.completed 0) 52428800)).session.step
        = .idle ∧
      (handleAcqResult {} (downloadTelegramFile "v.mp4" (.completed 0) 52428800)).reply
        = "❌ Download failed: " ++ "Download failed: Downloaded file is empty" ∧
      ((downloadTelegramFile "v.mp4" (.completed 0) 52428800).fileExistsAfter = false ↔
        (∃ m, (StreamOutcome.completed 0) = .requestError m) ∨
        (∃ sz, (StreamOutcome.completed 0) = .completed sz ∧
          (sz = 0 ∨ 52428800 < sz))) ∧
      (handleAcqResult {} (downloadDirectUrl "https://example.com/v.mp4" "u.mp4"
        (.streamError "read ECONNRESET" 5) 52428800)).session.step = .idle ∧
      (handleAcqResult {} (downloadDirectUrl "https://example.com/v.mp4" "u.mp4"
        (.streamError "read ECONNRESET" 5) 52428800)).reply
        = "❌ Download failed: " ++ "URL download failed: read ECONNRESET" ∧
      ((downloadDirectUrl "https://example.com/v.mp4" "u.mp4"
          (.streamError "read ECONNRESET" 5) 52428800).fileExistsAfter = false ↔
        jsStartsWith "https://example.com/v.mp4" "http" = false ∨
        (∃ m, (StreamOutcome.streamError "read ECONNRESET" 5) = .requestError m) ∨
        (∃ sz, (StreamOutcome.streamError "read ECONNRESET" 5) = .completed sz ∧
          52428800 < sz)) ∧
      (∀ u fn oc, extractDriveFileId u = none →
        (driveAcqResult u fn oc 52428800).success = false ∧
        (handleAcqResult {} (driveAcqResult u fn oc 52428800)).session.step = .idle ∧
        (handleAcqResult {} (driveAcqResult u fn oc 52428800)).reply
          = "❌ Download failed: " ++ "Invalid Google Drive URL format" ∧
        (driveAcqResult u fn oc 52428800).fileExistsAfter = false) ∧
      (∀ u fn oc fileId, extractDriveFileId u = some fileId →
        driveAcqResult u fn oc 52428800
          = downloadDirectUrl ("https://drive.google.com/uc?export=download&id=" ++ fileId)
              fn oc 52428800)) :=
  ⟨rfl, rfl, by decide, by decide,
    acquisition_failure_handling {} "v.mp4" "https://example.com/v.mp4" "u.mp4"
      (.completed 0) (.streamError "read ECONNRESET" 5) 52428800
      "Download failed: Downloaded file is empty" "URL download failed: read ECONNRESET"
      rfl rfl (by decide) (by decide)⟩

/-- C8 counterexample: the cancel inline button on a session holding an
in-flight file and a pending auth code only sets the step to `idle`; it clears
neither `authStep` nor `videoInfo` nor `filePath`, so the claim that explicit
cancellation via the cancel button clears them is false. -/
theorem cancel_button_counterexample :
    (cancelAction midFlowSession).step = .idle ∧
    (cancelAction midFlowSession).filePath = some "temp/v.mp4" ∧
    (cancelAction midFlowSession).authStep = some .awaiting_code ∧
    (cancelAction midFlowSession).videoInfo = { title := some "T" } :=
  ⟨rfl, rfl, rfl, rfl⟩

/-- C8 (amended): the `/cancel` *command* forces `idle`, clears `authStep`,
`videoInfo` and `filePath`, invokes cleanup on the in-flight file path and
preserves `isAdmin`; the cancel *button* only sets the step to `idle`, leaving
`authStep`, `videoInfo`, `filePath` and the scratch file untouched. -/
theorem cancel_behavior (s : Session) (files : List String) :
    (cancelCommand s files).session.step = .idle ∧
    (cancelCommand s files).session.authStep = none ∧
    (cancelCommand s files).session.videoInfo = {} ∧
    (cancelCommand s files).session.filePath = none ∧
    (cancelCommand s files).session.isAdmin = s.isAdmin ∧
    (∀ p, s.filePath = some p →
      p ∈ (cancelCommand s files).cleanupCalls ∧
      p ∉ (cancelCommand s files).files) ∧
    (s.filePath = none →
      (cancelCommand s files).cleanupCalls = [] ∧
      (cancelCommand s files).files = files) ∧
    (cancelAction s).step = .idle ∧
    (cancelAction s).authStep = s.authStep ∧
    (cancelAction s).videoInfo = s.videoInfo ∧
    (cancelAction s).filePath = s.filePath ∧
    (cancelAction s).isAdmin = s.isAdmin := by
  refine ⟨rfl, rfl, rfl, rfl, Bool.or_false s.isAdmin, ?_, ?_, rfl, rfl, rfl, rfl, rfl⟩
  · intro p hp
    refine ⟨?_, ?_⟩
    · simp [cancelCommand, hp]
    · simp [cancelCommand, cleanup, hp, mem_filter_ne_self p files]
  · intro hnone
    exact ⟨by simp [cancelCommand, hnone], by simp [cancelCommand, cleanup, hnone]⟩

/-- Witness for `cancel_behavior`: a mid-flow session holding a scratch file
and a pending auth code, with the in-flight-file conclusion discharged at its
recorded path. -/
theorem cancel_behavior_witness :
    ((cancelCommand midFlowSession ["temp/v.mp4"]).session.step = .idle ∧
      (cancelCommand midFlowSession ["temp/v.mp4"]).session.authStep = none ∧
      (cancelCommand midFlowSession ["temp/v.mp4"]).session.videoInfo = {} ∧
      (cancelCommand midFlowSession ["temp/v.mp4"]).session.filePath = none ∧
      (cancelCommand midFlowSession ["temp/v.mp4"]).session.isAdmin = midFlowSession.isAdmin ∧
      (∀ p, midFlowSession.filePath = some p →
        p ∈ (cancelCommand midFlowSession ["temp/v.mp4"]).cleanupCalls ∧
        p ∉ (cancelCommand midFlowSession ["temp/v.mp4"]).files) ∧
      (midFlowSession.filePath = none →
        (cancelCommand midFlowSession ["temp/v.mp4"]).cleanupCalls = [] ∧
        (cancelCommand midFlowSession ["temp/v.mp4"]).files = ["temp/v.mp4"]) ∧
      (cancelAction midFlowSession).step = .idle ∧
      (cancelAction midFlowSession).authStep = midFlowSession.authStep ∧
      (cancelAction midFlowSession).videoInfo = midFlowSession.videoInfo ∧
      (cancelAction midFlowSession).filePath = midFlowSession.filePath ∧
      (cancelAction midFlowSession).isAdmin = midFlowSession.isAdmin) ∧
    "temp/v.mp4" ∈ (cancelCommand midFlowSession ["temp/v.mp4"]).cleanupCalls ∧
    "temp/v.mp4" ∉ (cancelCommand midFlowSession ["temp/v.mp4"]).files :=
  ⟨cancel_behavior midFlowSession ["temp/v.mp4"],
    (cancel_behavior midFlowSession ["temp/v.mp4"]).2.2.2.2.2.1 "temp/v.mp4" rfl⟩

/-- C9: with `authStep = awaiting_code` the next free-text message is routed to
the auth-code handler before any step-based dispatch, whatever the main step;
a successful exchange saves the token set through the credential store; and
`authStep` is cleared whether the exchange succeeds or fails. -/
theorem auth_code_precedence (s : Session) (isUrl : Bool) (outcome : ExchangeOutcome)
    (h : s.authStep = some AuthStep.awaiting_code) :
    routeText s isUrl = .authCode ∧
    (handleAuthCode s outcome).session.authStep = none ∧
    (∀ tokens email name, outcome = .ok tokens email name →
      (handleAuthCode s outcome).savedTokens = some tokens ∧
      (handleAuthCode s outcome).replySuccess = true) ∧
    (∀ m, outcome = .err m →
      (handleAuthCode s outcome).savedTokens = none ∧
      (handleAuthCode s outcome).replySuccess = false) := by
  refine ⟨?_, rfl, ?_, ?_⟩
  · unfold routeText
    rw [h]
    simp
  · rintro tokens email name rfl
    exact ⟨rfl, rfl⟩
  · rintro m rfl
    exact ⟨rfl, rfl⟩

/-- Witness for `auth_code_precedence`: a session mid-auth while the main step
is `awaiting_title`, with a successful exchange. -/
theorem auth_code_precedence_witness :
    ({ step := .awaiting_title, authStep := some .awaiting_code } : Session).authStep
      = some AuthStep.awaiting_code ∧
    (routeText { step := .awaiting_title, authStep := some .awaiting_code } false = .authCode ∧
      (handleAuthCode { step := .awaiting_title, authStep := some .awaiting_code }
        (.ok "tok" "a@b" "N")).session.authStep = none ∧
      (∀ tokens email name, (ExchangeOutcome.ok "tok" "a@b" "N") = .ok tokens email name →
        (handleAuthCode { step := .awaiting_title, authStep := some .awaiting_code }
          (.ok "tok" "a@b" "N")).savedTokens = some tokens ∧
        (handleAuthCode { step := .awaiting_title, authStep := some .awaiting_code }
          (.ok "tok" "a@b" "N")).replySuccess = true) ∧
      (∀ m, (ExchangeOutcome.ok "tok" "a@b" "N") = .err m →
        (handleAuthCode { step := .awaiting_title, authStep := some .awaiting_code }
          (.ok "tok" "a@b" "N")).savedTokens = none ∧
        (handleAuthCode { step := .awaiting_title, authStep := some .awaiting_code }
          (.ok "tok" "a@b" "N")).replySuccess = false)) :=
  ⟨rfl, auth_code_precedence { step := .awaiting_title, authStep := some .awaiting_code }
    false (.ok "tok" "a@b" "N") rfl⟩

/-- C10: direct-URL acquisition accepts a zero-byte completed download as a
success of size 0, while chat-media acquisition rejects a zero-byte file as an
error. -/
theorem direct_url_zero_byte :
    (downloadDirectUrl "https://example.com/v.mp4" "url_1.mp4"
        (.completed 0) 52428800).success = true ∧
    (downloadDirectUrl "https://example.com/v.mp4" "url_1.mp4"
        (.completed 0) 52428800).size = 0 ∧
    (downloadTelegramFile "v.mp4" (.completed 0) 52428800).success = false ∧
    (downloadTelegramFile "v.mp4" (.completed 0) 52428800).error
      = some "Download failed: Downloaded file is empty" := by
  decide

end DeepYt
